import Mathlib

/-
  Verification development for the memoc library (blocks.h, allocators.h,
  pointers.h).  Machine integers of the source (std::int64_t sizes, hints)
  are modelled as Lean Int; pointers are modelled as Option Int or
  Option Nat addresses (none = nullptr).  Every definition is a direct
  translation of the corresponding C++ function.
-/

namespace Memoc

/-! ## Blocks (include/memoc/blocks.h) -/

/-- Default hint sentinel: std::numeric_limits of int64_t min. -/
def hintSentinel : Int := -(2 ^ 63)

/-- Block<void> (blocks.h 308-352): size, data pointer, hint.
The same layout is used by Block<T>; only indexing differs. -/
structure BlockV where
  size : Int
  data : Option Int
  hint : Int
deriving DecidableEq

/-- Block<void>() default constructor: all fields defaulted. -/
def emptyBlockV : BlockV := ⟨0, none, hintSentinel⟩

/-- Block<void>::Block(s, p, hint) (blocks.h 323-326):
s_ = p ? (s > 0 ? s : 0) : 0; p_ = s > 0 ? p : nullptr; hint_ = hint. -/
def mkBlockV (s : Int) (p : Option Int) (h : Int) : BlockV :=
  ⟨if p ≠ none then (if s > 0 then s else 0) else 0,
   if s > 0 then p else none,
   h⟩

/-- Block<void>::empty (blocks.h 328-331): !s_ && !p_. -/
def BlockV.empty (b : BlockV) : Bool := b.size == 0 && b.data == none

/-- Block<T>::Block(s, p, hint) (blocks.h 178-181); the normalization is
textually identical to the Block<void> constructor. -/
def mkBlockT (s : Int) (p : Option Int) (h : Int) : BlockV :=
  ⟨if p ≠ none then (if s > 0 then s else 0) else 0,
   if s > 0 then p else none,
   h⟩

/-- operator==(Block<T1>, Block<T2>) with T1 = void or T2 = void
(blocks.h 354-379).  t1, t2 are the element byte sizes
MEMOC_SSIZEOF(conditional_t<is_same_v<void,Ti>, uint8_t, Ti>), mem is the
byte memory.  Note the comparison loop runs for i < T1_size only. -/
def blockEqWithVoid (t1 t2 : Int) (mem : Int → Nat) (lhs rhs : BlockV) : Bool :=
  if lhs.size * t1 != rhs.size * t2 then false
  else if lhs.empty then true
  else
    match lhs.data, rhs.data with
    | some la, some ra =>
        (List.range t1.toNat).all (fun i => mem (la + i) == mem (ra + i))
    | _, _ => false

/-- The comparison the specification describes for the same overload:
equal byte footprints, compared byte-for-byte over the whole
size * sizeof(T) footprint. -/
def blockEqFullFootprint (t1 t2 : Int) (mem : Int → Nat) (lhs rhs : BlockV) : Bool :=
  if lhs.size * t1 != rhs.size * t2 then false
  else if lhs.empty then true
  else
    match lhs.data, rhs.data with
    | some la, some ra =>
        (List.range (lhs.size * t1).toNat).all (fun i => mem (la + i) == mem (ra + i))
    | _, _ => false

/-- Concrete byte memory for the C7 failing input: a 4-byte footprint at
address 0 holding 1,2,3,4 and a 4-byte footprint at address 100 holding
1,2,9,9 - equal on the first two bytes, different on the third. -/
def c7mem : Int → Nat := fun a =>
  if a = 0 then 1 else if a = 1 then 2 else if a = 2 then 3 else if a = 3 then 4
  else if a = 100 then 1 else if a = 101 then 2 else 9

/-- Claim C8: constructing a Block from any partial pair (positive size
with null pointer, or non-null pointer with size <= 0) yields a fully
empty block (size 0, data null); empty() is true exactly for such blocks;
no constructed Block (typed or void) is ever partially empty. -/
theorem c8_block_normalization (s : Int) (p : Option Int) (h : Int) :
    ((s ≤ 0 ∨ p = none) → (mkBlockV s p h).size = 0 ∧ (mkBlockV s p h).data = none)
    ∧ ((mkBlockV s p h).empty = true ↔
        ((mkBlockV s p h).size = 0 ∧ (mkBlockV s p h).data = none))
    ∧ (((mkBlockV s p h).size = 0 ∧ (mkBlockV s p h).data = none)
        ∨ ((mkBlockV s p h).size > 0 ∧ (mkBlockV s p h).data ≠ none))
    ∧ mkBlockT s p h = mkBlockV s p h := by
  unfold mkBlockV mkBlockT BlockV.empty
  by_cases hp : p = none <;> by_cases hs : s > 0 <;>
    simp [hp, hs]

/-- Witness for C8 at the concrete partial pair (size 5, null pointer). -/
theorem c8_block_normalization_witness :
    (mkBlockV 5 none 0).size = 0 ∧ (mkBlockV 5 none 0).data = none :=
  (c8_block_normalization 5 none 0).1 (Or.inr rfl)

/-! ## Allocators (include/memoc/allocators.h) -/

/-- Allocator_error (allocators.h 19-22). -/
inductive AllocatorError where
  | invalid_size
  | out_of_memory
  | unknown
deriving DecidableEq

instance {ε α : Type} [DecidableEq ε] [DecidableEq α] :
    DecidableEq (Except ε α) := fun a b =>
  match a, b with
  | .error e1, .error e2 =>
      if h : e1 = e2 then .isTrue (by rw [h])
      else .isFalse (by intro hc; cases hc; exact h rfl)
  | .ok v1, .ok v2 =>
      if h : v1 = v2 then .isTrue (by rw [h])
      else .isFalse (by intro hc; cases hc; exact h rfl)
  | .error _, .ok _ => .isFalse (by intro hc; cases hc)
  | .ok _, .error _ => .isFalse (by intro hc; cases hc)

/-- Loop body of details::encode (allocators.h 102-111).  code is a
uint64 accumulator (kept mod 2 ^ 64); the loop runs while the current
character is not NUL (the chars list holds only the non-NUL characters)
and code < INT64_MAX; each step ORs the character in and shifts left by
8 bits (CHAR_BIT times sizeof char). -/
def encodeGo : List Nat → Nat → Nat
  | [], code => code
  | c :: rest, code =>
      if code < 2 ^ 63 - 1 then encodeGo rest (((code ||| c) <<< 8) % 2 ^ 64)
      else code

/-- Character codes of the Malloc_allocator uuid string
"095deb2c-f51a-4193-b177-d6d686087c72" (allocators.h 142). -/
def mallocUuidChars : List Nat :=
  [48, 57, 53, 100, 101, 98, 50, 99, 45, 102, 53, 49, 97, 45, 52, 49, 57,
   51, 45, 98, 49, 55, 55, 45, 100, 54, 100, 54, 56, 54, 48, 56, 55, 99,
   55, 50]

/-- Malloc_allocator::uuid_ : encode of the uuid string, cast from uint64
to int64 (two's complement). -/
def mallocUuid : Int :=
  let code := encodeGo mallocUuidChars 0
  if code < 2 ^ 63 then (code : Int) else (code : Int) - 2 ^ 64

/-- Malloc_allocator::allocate (allocators.h 115-128).  mallocFn models
std::malloc: for a positive request it yields the address of the new
region or none on failure. -/
def mallocAllocate (mallocFn : Int → Option Int) (s : Int) :
    Except AllocatorError BlockV :=
  if s < 0 then .error .invalid_size
  else if s = 0 then .ok emptyBlockV
  else
    let b := mkBlockV s (mallocFn s) mallocUuid
    if b.empty then .error .unknown else .ok b

/-- Stack_allocator::align (allocators.h 229-232): round up to even. -/
def alignStack (s : Int) : Int := if s % 2 == 0 then s else s + 1

/-- Default_stacks_manager state: the current bump pointer of each of the
Stacks_count stacks (allocators.h 192-196).  The static backing buffers
are laid out flat: buffer i spans addresses [i * B, (i + 1) * B), so the
initial bump pointer of stack i is i * B. -/
def smMallocGo (B s base : Int) : List Int → Option Int × List Int
  | [] => (none, [])
  | p :: rest =>
      if B - (p - base) ≥ s then (some p, (p + s) :: rest)
      else
        let r := smMallocGo B s (base + B) rest
        (r.1, p :: r.2)

/-- Default_stacks_manager::stack_free (allocators.h 171-179): for the
first stack whose bump pointer minus s equals the freed pointer, the bump
pointer retreats to the freed pointer; otherwise no stack changes. -/
def smFreeGo (s : Int) (pv : Option Int) : List Int → List Int
  | [] => []
  | p :: rest =>
      match pv with
      | some a => if a = p - s then a :: rest else p :: smFreeGo s (some a) rest
      | none => p :: smFreeGo s none rest

/-- Stack_allocator::allocate (allocators.h 202-215) over a manager with
per-stack capacity B whose bump pointers are st (stack_malloc is
smMallocGo with the flat buffer bases 0, B, 2B, ...). -/
def stackAllocate (B : Int) (st : List Int) (s : Int) :
    Except AllocatorError BlockV × List Int :=
  if s < 0 then (.error .invalid_size, st)
  else if s = 0 then (.ok emptyBlockV, st)
  else
    match smMallocGo B (alignStack s) 0 st with
    | (none, st1) => (.error .out_of_memory, st1)
    | (some p, st1) => (.ok (mkBlockV s (some p) hintSentinel), st1)

/-- Stack_allocator::deallocate (allocators.h 217-221):
stack_free(b.data(), b.size()) - note the unaligned size - then b = {}. -/
def stackDeallocate (st : List Int) (b : BlockV) : List Int × BlockV :=
  (smFreeGo b.size b.data st, emptyBlockV)

/-- Claim C1: for the Malloc and Stack leaf allocators, allocate(0) is
Ok(empty) and never an error; allocate(n) with n < 0 is
Err(invalid_size); and any successful allocate(n) with n > 0 returns a
block with size == n and non-null data. -/
theorem c1_leaf_allocate_shape (mallocFn : Int → Option Int)
    (B : Int) (st : List Int) (s : Int) :
    mallocAllocate mallocFn 0 = .ok emptyBlockV
    ∧ (stackAllocate B st 0).1 = .ok emptyBlockV
    ∧ (s < 0 → mallocAllocate mallocFn s = .error .invalid_size
        ∧ (stackAllocate B st s).1 = .error .invalid_size)
    ∧ (0 < s → ∀ b, mallocAllocate mallocFn s = .ok b →
        b.size = s ∧ b.data ≠ none)
    ∧ (0 < s → ∀ b st1, stackAllocate B st s = (.ok b, st1) →
        b.size = s ∧ b.data ≠ none) := by
  refine ⟨by simp [mallocAllocate], by simp [stackAllocate], ?_, ?_, ?_⟩
  · intro hneg
    constructor
    · simp [mallocAllocate, hneg]
    · simp [stackAllocate, hneg]
  · intro hpos b hok
    have h1 : ¬ (s < 0) := by omega
    have h2 : ¬ (s = 0) := by omega
    simp only [mallocAllocate, h1, h2, if_false] at hok
    cases hm : mallocFn s with
    | none =>
        rw [hm] at hok
        simp [mkBlockV, BlockV.empty, hpos] at hok
    | some a =>
        rw [hm] at hok
        simp only [mkBlockV, BlockV.empty] at hok
        simp only [hpos, if_pos] at hok
        simp at hok
        subst hok
        simp [mkBlockV, hpos]
  · intro hpos b st1 hok
    have h1 : ¬ (s < 0) := by omega
    have h2 : ¬ (s = 0) := by omega
    simp only [stackAllocate, h1, h2, if_false] at hok
    cases hsm : smMallocGo B (alignStack s) 0 st with
    | mk po st2 =>
        rw [hsm] at hok
        cases po with
        | none => simp at hok
        | some p =>
            simp at hok
            obtain ⟨hb, _⟩ := hok
            subst hb
            simp [mkBlockV, hpos]

/-- Witness for C1 at malloc returning address 100, a one-stack manager
of capacity 4, and request size 3. -/
theorem c1_leaf_allocate_shape_witness :
    (mkBlockV 3 (some 100) mallocUuid).size = 3
    ∧ (mkBlockV 3 (some 100) mallocUuid).data ≠ none :=
  (c1_leaf_allocate_shape (fun _ => some 100) 4 [0] 3).2.2.2.1
    (by decide) (mkBlockV 3 (some 100) mallocUuid) (by decide)

/-- Claim C2 counterexample: one stack of capacity 4 (even, > 1), fresh
state [0].  allocate(1) advances the bump pointer by align(1) = 2 and
returns the block (size 1, data 0).  That block satisfies
data == bump - align(size) (0 == 2 - 2), so the claim requires the bump
pointer to retreat on deallocate; the code compares data against
bump - size (2 - 1 = 1) instead and leaves the bump pointer at 2. -/
theorem c2_stack_deallocate_counterexample :
    stackAllocate 4 [0] 1 = (.ok (mkBlockV 1 (some 0) hintSentinel), [2])
    ∧ (mkBlockV 1 (some 0) hintSentinel).data
        = some (2 - alignStack (mkBlockV 1 (some 0) hintSentinel).size)
    ∧ (stackDeallocate [2] (mkBlockV 1 (some 0) hintSentinel)).1 = [2] := by
  refine ⟨by decide, by decide, by decide⟩

/-- Claim C2 (amended): for a single-stack manager with bump pointer ptr,
deallocate(block) retreats the bump pointer if and only if
block.data == ptr - block.size, with the size NOT re-aligned; any other
free leaves the bump pointer unchanged, and the block is always reset to
empty.  (Frees of odd-sized blocks therefore miss even in LIFO order,
since allocation advanced the pointer by the aligned size.) -/
theorem c2_stack_deallocate_amended (ptr : Int) (b : BlockV) :
    (b.data = some (ptr - b.size) →
      stackDeallocate [ptr] b = ([ptr - b.size], emptyBlockV))
    ∧ (b.data ≠ some (ptr - b.size) →
      stackDeallocate [ptr] b = ([ptr], emptyBlockV)) := by
  constructor
  · intro h
    simp [stackDeallocate, smFreeGo, h]
  · intro h
    cases hd : b.data with
    | none => simp [stackDeallocate, smFreeGo, hd]
    | some a =>
        rw [hd] at h
        have ha : ¬ (a = ptr - b.size) := by
          intro hc; exact h (by rw [hc])
        simp [stackDeallocate, smFreeGo, hd, ha]

/-- Witness for the amended C2 at ptr = 2 and the block (size 1, data 1):
data 1 equals 2 - 1, so the bump pointer retreats to 1. -/
theorem c2_stack_deallocate_amended_witness :
    stackDeallocate [2] (mkBlockV 1 (some 1) 0) = ([1], emptyBlockV) := by
  have h := (c2_stack_deallocate_amended 2 (mkBlockV 1 (some 1) 0)).1 (by decide)
  simpa using h

/-- The initial bump pointers of Default_stacks_manager<16, 128>
(allocators.h 150-157, 192-196): the static buffers are laid out flat, so
ptrs_[i] starts at buffers_[i] = 128 * i.  This state is inline static:
it is shared by every Stack_allocator instance over this manager type. -/
def defaultStacksInit : List Int :=
  [0, 128, 256, 384, 512, 640, 768, 896, 1024, 1152, 1280, 1408, 1536,
   1664, 1792, 1920]

/-- Claim C9 counterexample: two default-constructed Stack_allocator
instances drive the same static manager state.  Instance A allocates 2
and gets address 0; a subsequent allocate(2) through instance B on the
state left by A returns address 2, while the same call on the untouched
initial state returns address 0 - so an allocation through one instance
changes the pointer returned through the other. -/
theorem c9_stack_shared_state_counterexample :
    (stackAllocate 128 defaultStacksInit 2).1
      = .ok (mkBlockV 2 (some 0) hintSentinel)
    ∧ (stackAllocate 128 (stackAllocate 128 defaultStacksInit 2).2 2).1
      = .ok (mkBlockV 2 (some 2) hintSentinel)
    ∧ (mkBlockV 2 (some 2) hintSentinel) ≠ (mkBlockV 2 (some 0) hintSentinel) := by
  refine ⟨by decide, by decide, by decide⟩

/-- Claim C9 (amended): two default-constructed Stack allocator instances
over the same manager type share one inline-static backing state; after
one instance allocates s, an allocate(t) through the other instance
returns the advanced bump address align(s) instead of the initial
address 0. -/
theorem c9_stack_shared_state_amended (s t : Int) (hs : 0 < s) (ht : 0 < t)
    (hfit : alignStack s + alignStack t ≤ 128) :
    (stackAllocate 128 defaultStacksInit s).1
      = .ok (mkBlockV s (some 0) hintSentinel)
    ∧ (stackAllocate 128 (stackAllocate 128 defaultStacksInit s).2 t).1
      = .ok (mkBlockV t (some (alignStack s)) hintSentinel)
    ∧ alignStack s ≠ 0 := by
  have hs1 : ¬ (s < 0) := by omega
  have hs2 : ¬ (s = 0) := by omega
  have ht1 : ¬ (t < 0) := by omega
  have ht2 : ¬ (t = 0) := by omega
  have has : 0 < alignStack s := by
    unfold alignStack; split <;> omega
  have hat : 0 < alignStack t := by
    unfold alignStack; split <;> omega
  have hroom1 : (128 : Int) - (0 - 0) ≥ alignStack s := by omega
  have hroom2 : (128 : Int) - (0 + alignStack s - 0) ≥ alignStack t := by omega
  refine ⟨?_, ?_, by omega⟩
  · simp only [stackAllocate, hs1, hs2, if_false, defaultStacksInit,
      smMallocGo, hroom1, if_pos]
  · simp only [stackAllocate, hs1, hs2, ht1, ht2, if_false,
      defaultStacksInit, smMallocGo, hroom1, if_pos]
    simp only [smMallocGo, zero_add] at hroom2 ⊢
    rw [if_pos hroom2]

/-- Witness for the amended C9 at s = t = 2. -/
theorem c9_stack_shared_state_amended_witness :
    (stackAllocate 128 (stackAllocate 128 defaultStacksInit 2).2 2).1
      = .ok (mkBlockV 2 (some (alignStack 2)) hintSentinel) :=
  (c9_stack_shared_state_amended 2 2 (by decide) (by decide) (by decide)).2.1

/-! ## Free_list_allocator (allocators.h 237-333) -/

/-- Free_list_allocator state: the intrusive free list as (address, hint)
pairs with root_ at the head, plus the list_size_ counter. -/
structure FLState where
  nodes : List (Int × Int)
  listSize : Int
deriving DecidableEq

/-- Free_list_allocator::deallocate (allocators.h 304-317).  Returns the
new list state, the caller block after reset, and the block handed to the
internal allocator (none when the node was cached instead).  A block
whose size is in range always carries an address (normalized blocks with
positive size are never partially empty), read with getD. -/
def flDeallocate (Min_size Max_size Max_list_size : Int)
    (st : FLState) (b : BlockV) : FLState × BlockV × Option BlockV :=
  if b.size < Min_size ∨ b.size > Max_size ∨ st.listSize > Max_list_size then
    (st, emptyBlockV, some (mkBlockV Max_size b.data b.hint))
  else
    (⟨(b.data.getD 0, b.hint) :: st.nodes, st.listSize + 1⟩, emptyBlockV, none)

/-- Free_list_allocator::owns (allocators.h 319-322): size-range test OR
the internal allocator owns test. -/
def flOwns (Min_size Max_size : Int) (innerOwns : BlockV → Bool)
    (b : BlockV) : Bool :=
  (decide (b.size ≥ Min_size) && decide (b.size ≤ Max_size)) || innerOwns b

/-- Claim C3 counterexample: FreeList with MinSize = MaxSize = 2 and
MaxListSize = 1.  After one cached deallocation the list size is 1, which
is not strictly less than MaxListSize, so the claim requires the next
in-range deallocate to delegate to the inner allocator; the code tests
list_size_ > Max_list_size and caches it anyway, growing the list to
MaxListSize + 1 = 2 nodes with no delegation. -/
theorem c3_free_list_deallocate_counterexample :
    flDeallocate 2 2 1 ⟨[], 0⟩ (mkBlockV 2 (some 10) 7)
      = (⟨[(10, 7)], 1⟩, emptyBlockV, none)
    ∧ flDeallocate 2 2 1 ⟨[(10, 7)], 1⟩ (mkBlockV 2 (some 20) 7)
      = (⟨[(20, 7), (10, 7)], 2⟩, emptyBlockV, none)
    ∧ ¬ ((1 : Int) < 1) := by
  refine ⟨by decide, by decide, by decide⟩

/-- Claim C3 (amended): deallocate pushes the node (address = block.data,
preserving the hint) and resets the block if and only if block.size is in
[MinSize, MaxSize] and the current list size is at most MaxListSize
(i.e. not strictly greater); otherwise it reconstructs a MaxSize block
carrying the stored hint and delegates to the inner allocator.  The
cached list therefore never holds more than MaxListSize + 1 nodes. -/
theorem c3_free_list_deallocate_amended (Min_size Max_size Max_list_size : Int)
    (st : FLState) (b : BlockV) :
    (Min_size ≤ b.size → b.size ≤ Max_size → st.listSize ≤ Max_list_size →
      flDeallocate Min_size Max_size Max_list_size st b
        = (⟨(b.data.getD 0, b.hint) :: st.nodes, st.listSize + 1⟩,
           emptyBlockV, none))
    ∧ (b.size < Min_size ∨ b.size > Max_size ∨ st.listSize > Max_list_size →
      flDeallocate Min_size Max_size Max_list_size st b
        = (st, emptyBlockV, some (mkBlockV Max_size b.data b.hint)))
    ∧ (st.listSize ≤ Max_list_size + 1 →
      (flDeallocate Min_size Max_size Max_list_size st b).1.listSize
        ≤ Max_list_size + 1) := by
  refine ⟨?_, ?_, ?_⟩
  · intro h1 h2 h3
    have hc : ¬ (b.size < Min_size ∨ b.size > Max_size
        ∨ st.listSize > Max_list_size) := by omega
    simp [flDeallocate, hc]
  · intro hc
    simp [flDeallocate, hc]
  · intro hbound
    unfold flDeallocate
    split
    · simpa using hbound
    · rename_i hc
      simp only
      omega

/-- Witness for the amended C3: pushing onto an empty list with
MinSize = 2, MaxSize = 4, MaxListSize = 1. -/
theorem c3_free_list_deallocate_amended_witness :
    flDeallocate 2 4 1 ⟨[], 0⟩ (mkBlockV 3 (some 10) 7)
      = (⟨[(10, 7)], 1⟩, emptyBlockV, none) := by
  have h := (c3_free_list_deallocate_amended 2 4 1 ⟨[], 0⟩
    (mkBlockV 3 (some 10) 7)).1 (by decide) (by decide) (by decide)
  simpa using h

/-- Claim C10: Free_list_allocator::owns(b) is true for every block whose
size lies in [MinSize, MaxSize], whatever the inner allocator answers -
owns is the disjunction of the size-range test and the inner owns, so a
foreign in-range block is claimed as owned. -/
theorem c10_free_list_owns_in_range (Min_size Max_size : Int)
    (innerOwns : BlockV → Bool) (b : BlockV)
    (h1 : Min_size ≤ b.size) (h2 : b.size ≤ Max_size) :
    flOwns Min_size Max_size innerOwns b = true := by
  simp [flOwns, h1, h2]

/-- Witness for C10: a block of in-range size 3 that no allocator ever
produced (inner owns always false) is still owned. -/
theorem c10_free_list_owns_in_range_witness :
    flOwns 2 4 (fun _ => false) (mkBlockV 3 (some 5) 0) = true :=
  c10_free_list_owns_in_range 2 4 (fun _ => false) (mkBlockV 3 (some 5) 0)
    (by decide) (by decide)

/-- Claim C7 (evaluation at the failing input): comparing the typed block
(2 elements of byte size 2, footprint bytes 1,2,3,4 at address 0) with
the untyped block (4 bytes 1,2,9,9 at address 100) returns true although
the full byte footprints differ at the third byte - the code compares
only the first sizeof(T1) bytes, not the whole footprint. -/
theorem c7_block_eq_prefix_bug :
    blockEqWithVoid 2 1 c7mem (mkBlockV 2 (some 0) hintSentinel)
      (mkBlockV 4 (some 100) hintSentinel) = true
    ∧ blockEqFullFootprint 2 1 c7mem (mkBlockV 2 (some 0) hintSentinel)
      (mkBlockV 4 (some 100) hintSentinel) = false
    ∧ c7mem (0 + 2) ≠ c7mem (100 + 2) := by
  refine ⟨by decide, by decide, by decide⟩

/-! ## Smart pointers (include/memoc/pointers.h)

The reference-counting layer is embedded as an explicit heap: control
blocks live in a list indexed by control-block id, pointee objects in a
list indexed by pointee id.  A handle (Shared_ptr or Weak_ptr) stores the
two pointers cb_ and ptr_ as optional indices.  Each operation returns
Option: none models a null dereference or use-after-free, which is
undefined behavior in the source. -/

/-- Control_block (pointers.h 199-202) plus a freed flag recording that
its destructor ran and its Block was returned. -/
structure CB where
  use_count : Int
  weak_count : Int
  freed : Bool
deriving DecidableEq

/-- A pointee object: how many times its destructor ran and how many
times its Block was handed back to the allocator. -/
structure PointeeObj where
  destructed : Nat
  blockReturned : Nat
deriving DecidableEq

/-- The pointer-system heap. -/
structure PState where
  cbs : List CB
  objs : List PointeeObj
deriving DecidableEq

/-- Shared_ptr handle: cb_ and ptr_ (pointers.h 449-451). -/
structure SP where
  cb : Option Nat
  ptr : Option Nat
deriving DecidableEq

/-- Weak_ptr handle: cb_ and ptr_ (pointers.h 760-762). -/
structure WP where
  cb : Option Nat
  ptr : Option Nat
deriving DecidableEq

def getCB (s : PState) (i : Nat) : Option CB := s.cbs.get? i

def setCB (s : PState) (i : Nat) (c : CB) : PState :=
  { s with cbs := s.cbs.set i c }

/-- destruct_at<T>(ptr_) on pointee i. -/
def destructPointee (s : PState) (i : Nat) : Option PState :=
  (s.objs.get? i).map fun o =>
    { s with objs := s.objs.set i { o with destructed := o.destructed + 1 } }

/-- allocator_.deallocate of the Block of pointee i. -/
def returnPointeeBlock (s : PState) (i : Nat) : Option PState :=
  (s.objs.get? i).map fun o =>
    { s with objs := s.objs.set i { o with blockReturned := o.blockReturned + 1 } }

/-- Allocation and construction of a fresh pointee object (as done by the
caller before Shared_ptr(T* ptr), e.g. inside make_shared). -/
def newPointee (s : PState) : PState × Nat :=
  ({ s with objs := s.objs ++ [⟨0, 0⟩] }, s.objs.length)

/-- Shared_ptr::Shared_ptr(T* ptr) (pointers.h 214-224): a null input
gives an empty shared with no control block; otherwise a control block is
allocated (the allocate().value() call is assumed to succeed, as the code
assumes) and set to use_count = 1, weak_count = 0. -/
def sharedFromRaw (s : PState) (p : Option Nat) : PState × SP :=
  match p with
  | none => (s, ⟨none, none⟩)
  | some _ => ({ s with cbs := s.cbs ++ [⟨1, 0, false⟩] }, ⟨some s.cbs.length, p⟩)

/-- Shared_ptr::remove_reference (pointers.h 427-447). -/
def sharedRemoveRef (s : PState) (h : SP) : Option (PState × SP) :=
  if h.ptr = none ∧ h.cb = none then some (s, h)
  else do
    let ci ← h.cb
    let cb ← getCB s ci
    if cb.freed then none else
    let cb1 := if cb.use_count > 0 then { cb with use_count := cb.use_count - 1 }
               else cb
    let s1 := setCB s ci cb1
    let r ←
      if cb1.use_count = 0 ∧ h.ptr ≠ none then do
        let pi ← h.ptr
        let sa ← destructPointee s1 pi
        let sb ← returnPointeeBlock sa pi
        pure (sb, { h with ptr := none })
      else pure (s1, h)
    if cb1.use_count = 0 ∧ cb1.weak_count = 0 then
      some (setCB r.1 ci { cb1 with freed := true }, { r.2 with cb := none })
    else
      some r

/-- Shared_ptr::reset() (pointers.h 375-380). -/
def sharedReset (s : PState) (h : SP) : Option (PState × SP) :=
  (sharedRemoveRef s h).map fun r => (r.1, ⟨none, none⟩)

/-- Weak_ptr::Weak_ptr(const Shared_ptr&) (pointers.h 562-568). -/
def weakFromShared (s : PState) (sp : SP) : Option (PState × WP) :=
  match sp.cb with
  | none => some (s, ⟨none, sp.ptr⟩)
  | some ci => do
      let cb ← getCB s ci
      if cb.freed then none
      else some (setCB s ci { cb with weak_count := cb.weak_count + 1 },
                 ⟨some ci, sp.ptr⟩)

/-- Weak_ptr::operator=(const Shared_ptr&) (pointers.h 581-591): the
fields are overwritten and the new control block incremented WITHOUT a
prior remove_reference on the currently observed control block. -/
def weakAssignShared (s : PState) (_w : WP) (sp : SP) : Option (PState × WP) :=
  match sp.cb with
  | none => some (s, ⟨none, sp.ptr⟩)
  | some ci => do
      let cb ← getCB s ci
      if cb.freed then none
      else some (setCB s ci { cb with weak_count := cb.weak_count + 1 },
                 ⟨some ci, sp.ptr⟩)

/-- Weak_ptr::remove_reference (pointers.h 741-758). -/
def weakRemoveRef (s : PState) (w : WP) : Option (PState × WP) := do
  let w0 ←
    match w.cb with
    | none => pure w
    | some ci => do
        let cb ← getCB s ci
        if cb.freed then none
        else if cb.use_count = 0 then pure { w with ptr := none }
        else pure w
  if w0.ptr = none ∧ w0.cb = none then pure (s, w0)
  else do
    let ci ← w0.cb
    let cb ← getCB s ci
    if cb.freed then none else
    let cb1 := if cb.weak_count > 0 then { cb with weak_count := cb.weak_count - 1 }
               else cb
    let s1 := setCB s ci cb1
    if cb1.use_count = 0 ∧ cb1.weak_count = 0 then
      pure (setCB s1 ci { cb1 with freed := true }, { w0 with cb := none })
    else pure (s1, w0)

/-- Weak_ptr::reset() (pointers.h 716-721). -/
def weakReset (s : PState) (w : WP) : Option (PState × WP) :=
  (weakRemoveRef s w).map fun r => (r.1, ⟨none, none⟩)

/-- Weak_ptr::lock (pointers.h 726-738): starts from Shared_ptr{nullptr}
(no control block), returns it if cb_ is null, otherwise copies both
pointers and increments use_count when ptr_ is non-null.  There is no
check of use_count. -/
def weakLock (s : PState) (w : WP) : Option (PState × SP) :=
  match w.cb with
  | none => some (s, ⟨none, none⟩)
  | some ci =>
      if w.ptr ≠ none then do
        let cb ← getCB s ci
        if cb.freed then none
        else some (setCB s ci { cb with use_count := cb.use_count + 1 },
                   ⟨some ci, w.ptr⟩)
      else some (s, ⟨some ci, w.ptr⟩)

/-- Shared_ptr::use_count (pointers.h 350-353). -/
def spUseCount (s : PState) (h : SP) : Int :=
  match h.cb with
  | none => 0
  | some ci => ((getCB s ci).map CB.use_count).getD 0

/-- Weak_ptr::use_count and expired (pointers.h 706-714). -/
def wpExpired (s : PState) (w : WP) : Bool :=
  (match w.cb with
   | none => (0 : Int)
   | some ci => ((getCB s ci).map CB.use_count).getD 0) == 0

/-- The C5 trace: sp owns a fresh pointee; w observes it; sp.reset()
drops use_count to 0 and destroys the pointee; then w.lock().  Returns
(whether w was expired before lock, the locked handle, its use_count). -/
def c5trace : Option (Bool × SP × Int) :=
  let r1 := newPointee ⟨[], []⟩
  let r2 := sharedFromRaw r1.1 (some r1.2)
  do
    let r3 ← weakFromShared r2.1 r2.2
    let r4 ← sharedReset r3.1 r2.2
    let expiredBefore := wpExpired r4.1 r3.2
    let r5 ← weakLock r4.1 r3.2
    pure (expiredBefore, r5.2, spUseCount r5.1 r5.2)

/-- Claim C5 (evaluation at the failing input): after the owning
Shared_ptr is reset, the Weak_ptr is expired (use_count == 0), yet
lock() returns a Shared_ptr whose stored pointer is the destroyed
pointee (non-null, so operator bool is true - not an empty Shared_ptr)
and whose use_count was bumped to 1. -/
theorem c5_lock_expired_not_empty :
    c5trace = some (true, ⟨some 0, some 0⟩, 1) := by decide

/-- The C4 trace: same as C5, then the revived Shared_ptr from lock() is
reset as well.  Returns the pointee record. -/
def c4trace : Option PointeeObj :=
  let r1 := newPointee ⟨[], []⟩
  let r2 := sharedFromRaw r1.1 (some r1.2)
  do
    let r3 ← weakFromShared r2.1 r2.2
    let r4 ← sharedReset r3.1 r2.2
    let r5 ← weakLock r4.1 r3.2
    let r6 ← sharedReset r5.1 r5.2
    r6.1.objs.get? 0

/-- Claim C4 (evaluation at the failing input): across the sequence
Shared_ptr(p); Weak_ptr(sp); sp.reset(); sp2 = w.lock(); sp2.reset()
the pointee destructor runs twice and its Block is returned to the
allocator twice - not exactly once when use_count first drops to 0. -/
theorem c4_pointee_destroyed_twice :
    c4trace = some ⟨2, 2⟩ := by decide

/-- The C6 trace: w observes sp1 (control block 0), is then reassigned
from sp2 (control block 1), and finally reset.  Returns the weak counts
of both control blocks after the balanced weak sequence. -/
def c6trace : Option (Int × Int) :=
  let r1 := newPointee ⟨[], []⟩
  let r2 := newPointee r1.1
  let r3 := sharedFromRaw r2.1 (some r1.2)
  let r4 := sharedFromRaw r3.1 (some r2.2)
  do
    let r5 ← weakFromShared r4.1 r3.2
    let r6 ← weakAssignShared r5.1 r5.2 r4.2
    let r7 ← weakReset r6.1 r6.2
    let c0 ← getCB r7.1 0
    let c1 ← getCB r7.1 1
    pure (c0.weak_count, c1.weak_count)

/-- Claim C6 (evaluation at the failing input): after w = Weak(sp1);
w = sp2; w.reset() - a balanced sequence leaving no live Weak_ptr - the
first control block still has weak_count 1, because operator=(const
Shared_ptr&) overwrites without decrementing the previously observed
control block. -/
theorem c6_weak_count_not_symmetric :
    c6trace = some (1, 0) := by decide

end Memoc
